import Mathlib

/-!
Verification development for the tutor-suite repository: a shallow embedding
of its five source files (the Next.js tutor relay route, the Firebase
profile-store wrapper, the guarded Firebase init module, and the tutor page
component) together with theorems settling the specification's claims.
-/

set_option maxRecDepth 4000

/-! ## JSON values

JavaScript JSON values as manipulated by `req.json()`, `response.json()`,
`JSON.stringify`, and the Firestore document fields. Numbers are modelled as
integers: no source file in this repository produces or consumes a
fractional JSON number. -/

inductive Json where
  | null
  | bool (b : Bool)
  | num (n : Int)
  | str (s : String)
  | arr (elems : List Json)
  | obj (fields : List (String × Json))

/-! ## Model of ECMAScript JSON.parse

Executable model of the platform's `JSON.parse`, restricted to the JSON
fragment this repository exchanges: integer numerals (no fraction,
exponent, or leading zeros) and strings without escape sequences or raw
control characters. Inputs outside this fragment are rejected (`none`);
on inputs inside the fragment the model agrees with `JSON.parse`,
including its tolerance of whitespace between tokens. -/

def jsonWs (c : Char) : Bool :=
  c = ' ' || c = '\t' || c = '\n' || c = '\r'

def skipWs (cs : List Char) : List Char :=
  cs.dropWhile jsonWs

def jsonDigit (c : Char) : Bool :=
  '0' ≤ c && c ≤ '9'

def digitsToNat (ds : List Char) : Nat :=
  ds.foldl (fun n c => n * 10 + (c.toNat - 48)) 0

/-- Parses the body of a JSON string after the opening quote, up to and
including the closing quote; escape sequences and control characters are
outside the modelled fragment. -/
def parseStrBody : List Char → Option (List Char × List Char)
  | [] => none
  | c :: rest =>
    if c = '"' then some ([], rest)
    else if c = '\\' || c.toNat < 32 then none
    else match parseStrBody rest with
      | some (s, r) => some (c :: s, r)
      | none => none

/-- Parses a run of decimal digits as a JSON integer numeral, rejecting
leading zeros and any following fraction or exponent marker. -/
def parseNatTok (cs : List Char) : Option (Nat × List Char) :=
  match cs.takeWhile jsonDigit, cs.dropWhile jsonDigit with
  | [], _ => none
  | ds, rest =>
    if 1 < ds.length && ds.headD '0' = '0' then none
    else if rest.headD ' ' = '.' || rest.headD ' ' = 'e' || rest.headD ' ' = 'E' then none
    else some (digitsToNat ds, rest)

mutual

def parseValue : Nat → List Char → Option (Json × List Char)
  | 0, _ => none
  | fuel + 1, cs =>
    match skipWs cs with
    | [] => none
    | c :: rest =>
      if c = '\x7b' then
        match skipWs rest with
        | '\x7d' :: r2 => some (.obj [], r2)
        | r2 => (parseMembers fuel r2).map fun p => (.obj p.1, p.2)
      else if c = '[' then
        match skipWs rest with
        | ']' :: r2 => some (.arr [], r2)
        | r2 => (parseElems fuel r2).map fun p => (.arr p.1, p.2)
      else if c = '"' then
        (parseStrBody rest).map fun p => (.str ⟨p.1⟩, p.2)
      else if c = 't' then
        match rest with
        | 'r' :: 'u' :: 'e' :: r => some (.bool true, r)
        | _ => none
      else if c = 'f' then
        match rest with
        | 'a' :: 'l' :: 's' :: 'e' :: r => some (.bool false, r)
        | _ => none
      else if c = 'n' then
        match rest with
        | 'u' :: 'l' :: 'l' :: r => some (.null, r)
        | _ => none
      else if c = '-' then
        (parseNatTok rest).map fun p => (.num (-(p.1 : Int)), p.2)
      else if jsonDigit c then
        (parseNatTok (c :: rest)).map fun p => (.num (p.1 : Int), p.2)
      else none

def parseMembers : Nat → List Char → Option (List (String × Json) × List Char)
  | 0, _ => none
  | fuel + 1, cs =>
    match skipWs cs with
    | '"' :: rest =>
      match parseStrBody rest with
      | none => none
      | some (k, r1) =>
        match skipWs r1 with
        | ':' :: r2 =>
          match parseValue fuel r2 with
          | none => none
          | some (v, r3) =>
            match skipWs r3 with
            | ',' :: r4 => (parseMembers fuel r4).map fun p => ((⟨k⟩, v) :: p.1, p.2)
            | '\x7d' :: r4 => some ([(⟨k⟩, v)], r4)
            | _ => none
        | _ => none
    | _ => none

def parseElems : Nat → List Char → Option (List Json × List Char)
  | 0, _ => none
  | fuel + 1, cs =>
    match parseValue fuel cs with
    | none => none
    | some (v, r1) =>
      match skipWs r1 with
      | ',' :: r2 => (parseElems fuel r2).map fun p => (v :: p.1, p.2)
      | ']' :: r2 => some ([v], r2)
      | _ => none

end

/-- Model of `JSON.parse` on a whole string: a single JSON value, possibly
surrounded by whitespace; `none` models the `SyntaxError` throw. -/
def parseJson (s : String) : Option Json :=
  match parseValue (s.length + 1) s.data with
  | some (v, rest) => if skipWs rest = [] then some v else none
  | none => none

/-! ## Model of JSON.stringify -/

def escChar (c : Char) : List Char :=
  if c = '"' then ['\\', '"']
  else if c = '\\' then ['\\', '\\']
  else [c]

def escBody : List Char → List Char
  | [] => []
  | c :: rest => escChar c ++ escBody rest

/-- Serializes a string with surrounding quotes, escaping quotes and
backslashes as `JSON.stringify` does. -/
def stringifyStr (s : String) : List Char :=
  '"' :: escBody s.data ++ ['"']

mutual

def stringifyVal : Json → List Char
  | .null => "null".data
  | .bool b => if b then "true".data else "false".data
  | .num n => (toString n).data
  | .str s => stringifyStr s
  | .arr es => '[' :: stringifyElems es ++ [']']
  | .obj ms => '\x7b' :: stringifyMembers ms ++ ['\x7d']

def stringifyElems : List Json → List Char
  | [] => []
  | [e] => stringifyVal e
  | e :: rest => stringifyVal e ++ ',' :: stringifyElems rest

def stringifyMembers : List (String × Json) → List Char
  | [] => []
  | [(k, v)] => stringifyStr k ++ ':' :: stringifyVal v
  | (k, v) :: rest => stringifyStr k ++ ':' :: stringifyVal v ++ ',' :: stringifyMembers rest

end

/-- Model of `JSON.stringify` (compact form, as JavaScript produces with no
spacing argument). -/
def stringify (v : Json) : String :=
  ⟨stringifyVal v⟩

/-! ## Tutor Relay Endpoint (src/unnamed/part_001)

The Next.js route handler `POST(req)`. The incoming request is represented
by its raw body text (what `req.json()` parses); the platform `fetch` is
represented by a function from the outgoing request to a result that either
throws (the promise rejects) or yields an HTTP response with a status and a
body text (what `response.json()` parses). The handler's return value is a
`NextResponse.json(...)` call: a JSON body plus an HTTP status, where the
status defaults to 200 when no `\x7bstatus\x7d` option is given. The list
of `FetchRequest`s records every downstream call the handler performed. -/

structure FetchRequest where
  url : String
  method : String
  contentType : String
  body : String
deriving DecidableEq

inductive FetchResult where
  | thrown
  | response (status : Nat) (bodyText : String)

structure RelayResponse where
  status : Nat
  body : Json

/-- The fixed error payload of the catch branch. -/
def failedConnectBody : Json :=
  Json.obj [("error", Json.str "Failed to connect to tutor backend")]

/-- The downstream request built at lines 7-13 of the route: fixed URL,
method POST, Content-Type application/json, body JSON.stringify(body). -/
def askRequest (body : Json) : FetchRequest :=
  { url := "http://127.0.0.1:8000/ask"
    method := "POST"
    contentType := "application/json"
    body := stringify body }

/-- The route handler `POST` of src/unnamed/part_001: parse the request
body, forward it to the fixed backend address, parse and return the
downstream JSON; any throw lands in the catch branch, which answers the
fixed error object with status 500. -/
def POST (rawBody : String) (fetch : FetchRequest → FetchResult) :
    RelayResponse × List FetchRequest :=
  match parseJson rawBody with
  | none => (⟨500, failedConnectBody⟩, [])
  | some body =>
    match fetch (askRequest body) with
    | .thrown => (⟨500, failedConnectBody⟩, [askRequest body])
    | .response _ bodyText =>
      match parseJson bodyText with
      | none => (⟨500, failedConnectBody⟩, [askRequest body])
      | some data => (⟨200, data⟩, [askRequest body])

/-- A run of the handler encounters a transport or parsing failure: the
incoming body does not parse, the downstream fetch throws, or the
downstream response body does not parse. -/
def relayFails (rawBody : String) (fetch : FetchRequest → FetchResult) : Prop :=
  parseJson rawBody = none ∨
    ∃ body, parseJson rawBody = some body ∧
      (fetch (askRequest body) = .thrown ∨
        ∃ s txt, fetch (askRequest body) = .response s txt ∧ parseJson txt = none)

/-- C1, counterexample: the downstream call succeeds with the undeniably
successful status 201 and the JSON body given in the spec's example, yet
the relay answers with status 200 — `NextResponse.json(data)` carries no
status option, so the downstream's status is never propagated. The
downstream body itself is relayed. -/
theorem relay_status_not_verbatim :
    (POST "\x7b\x7d" (fun _ => .response 201 "\x7b\"final_answer\":\"x=2\"\x7d")).1.body =
      Json.obj [("final_answer", Json.str "x=2")] ∧
    (POST "\x7b\x7d" (fun _ => .response 201 "\x7b\"final_answer\":\"x=2\"\x7d")).1.status = 200 ∧
    ¬ (POST "\x7b\x7d" (fun _ => .response 201 "\x7b\"final_answer\":\"x=2\"\x7d")).1.status = 201 :=
  ⟨rfl, rfl, by decide⟩

/-- C1 (amended): whenever the incoming body parses, the downstream call
yields a response, and that response's body parses as JSON, the relay
returns the downstream JSON body verbatim — but always with HTTP status
200, whatever status the downstream answered with. -/
theorem relay_success_returns_downstream_body (rawBody : String) (body : Json)
    (fetch : FetchRequest → FetchResult) (s : Nat) (txt : String) (data : Json)
    (hreq : parseJson rawBody = some body)
    (hfetch : fetch (askRequest body) = .response s txt)
    (hresp : parseJson txt = some data) :
    (POST rawBody fetch).1 = ⟨200, data⟩ := by
  simp [POST, hreq, hfetch, hresp]

theorem relay_success_returns_downstream_body_witness :
    parseJson "\x7b\x7d" = some (Json.obj []) ∧
    (POST "\x7b\x7d" (fun _ => .response 201 "\x7b\"final_answer\":\"x=2\"\x7d")).1 =
      ⟨200, Json.obj [("final_answer", Json.str "x=2")]⟩ :=
  ⟨rfl, relay_success_returns_downstream_body "\x7b\x7d" (Json.obj [])
    (fun _ => .response 201 "\x7b\"final_answer\":\"x=2\"\x7d") 201
    "\x7b\"final_answer\":\"x=2\"\x7d" (Json.obj [("final_answer", Json.str "x=2")])
    rfl rfl rfl⟩

/-- C2: on any transport or parsing failure — the incoming body fails to
parse, the downstream fetch throws, or the downstream response fails to
parse — the relay answers exactly the fixed object
`\x7berror: "Failed to connect to tutor backend"\x7d` with HTTP status
500; being one constant, the answer preserves no detail of the cause. -/
theorem relay_failure_fixed_error (rawBody : String)
    (fetch : FetchRequest → FetchResult) (h : relayFails rawBody fetch) :
    (POST rawBody fetch).1 = ⟨500, failedConnectBody⟩ := by
  rcases h with h | ⟨body, hbody, h | ⟨s, txt, hfetch, htxt⟩⟩
  · simp [POST, h]
  · simp [POST, hbody, h]
  · simp [POST, hbody, hfetch, htxt]

theorem relay_failure_fixed_error_witness :
    relayFails "not json" (fun _ => .thrown) ∧
    (POST "not json" (fun _ => .thrown)).1 = ⟨500, failedConnectBody⟩ :=
  ⟨Or.inl rfl, relay_failure_fixed_error "not json" (fun _ => .thrown) (Or.inl rfl)⟩

/-- C3, counterexample: the request body `" \x7b\x7d"` (a space, then an
empty object) is accepted and forwarded, but what goes downstream is the
re-serialization `JSON.stringify(await req.json())`, the two-byte string
`"\x7b\x7d"` — not the three bytes that were received, so the forwarding
is not byte-for-byte. -/
theorem relay_forward_not_byte_identical :
    (POST " \x7b\x7d" (fun _ => .thrown)).2 = [askRequest (Json.obj [])] ∧
    ¬ (askRequest (Json.obj [])).body = " \x7b\x7d" :=
  ⟨rfl, by decide⟩

/-- C3 (amended): every JSON request body the relay accepts is forwarded
in a single POST call to the fixed address http://127.0.0.1:8000/ask with
Content-Type application/json and no validation of its shape, but the
bytes sent are the canonical re-serialization (`JSON.stringify`) of the
parsed value, which need not coincide byte-for-byte with the bytes
received. -/
theorem relay_forwards_reserialized (rawBody : String) (body : Json)
    (fetch : FetchRequest → FetchResult) (hreq : parseJson rawBody = some body) :
    (POST rawBody fetch).2 = [askRequest body] ∧
    (askRequest body).url = "http://127.0.0.1:8000/ask" ∧
    (askRequest body).method = "POST" ∧
    (askRequest body).contentType = "application/json" ∧
    (askRequest body).body = stringify body := by
  refine ⟨?_, rfl, rfl, rfl, rfl⟩
  cases hfetch : fetch (askRequest body) with
  | thrown => simp [POST, hreq, hfetch]
  | response s txt =>
    cases htxt : parseJson txt with
    | none => simp [POST, hreq, hfetch, htxt]
    | some data => simp [POST, hreq, hfetch, htxt]

theorem relay_forwards_reserialized_witness :
    parseJson " \x7b\x7d" = some (Json.obj []) ∧
    (POST " \x7b\x7d" (fun _ => .thrown)).2 = [askRequest (Json.obj [])] :=
  ⟨rfl, (relay_forwards_reserialized " \x7b\x7d" (Json.obj []) (fun _ => .thrown) rfl).1⟩

/-! ## Profile Store Adapter (src/unnamed/part_000)

Firestore is modelled as an association list of documents in the `users`
collection, each document an association list of fields holding JSON
values. `getDoc`/`setDoc` with `\x7bmerge: true\x7d` become a lookup and a
merge-write on that state; every network operation the adapter performs is
recorded as a `StoreOp`, so "fails before any network or store call" is
the statement that the recorded operation list is empty. -/

def alistGet {α : Type} (m : List (String × α)) (k : String) : Option α :=
  match m with
  | [] => none
  | (k2, v) :: rest => if k2 = k then some v else alistGet rest k

def alistSet {α : Type} (m : List (String × α)) (k : String) (v : α) :
    List (String × α) :=
  match m with
  | [] => [(k, v)]
  | (k2, v2) :: rest => if k2 = k then (k2, v) :: rest else (k2, v2) :: alistSet rest k v

abbrev FieldMap : Type := List (String × Json)

abbrev Store : Type := List (String × FieldMap)

/-- Firestore merge-write semantics of `setDoc(ref, fields, \x7bmerge: true\x7d)`
on one document: each supplied field is set, every other stored field is
left untouched. -/
def mergeFields (old fields : FieldMap) : FieldMap :=
  fields.foldl (fun acc kv => alistSet acc kv.1 kv.2) old

/-- One network call against the document store. -/
inductive StoreOp where
  | read (collection id : String)
  | write (collection id : String) (fields : FieldMap) (merge : Bool)

/-- getUserProfile of src/unnamed/part_000: throws "Missing uid" on an
empty uid (JavaScript `!uid` on a string is truth of emptiness), otherwise
performs one `getDoc` on the document `users/uid` and returns its data, or
null when the snapshot does not exist. The result pairs the thrown-or-
returned value with the store calls performed. -/
def getUserProfile (db : Store) (uid : String) :
    Except String (Option FieldMap) × List StoreOp :=
  if uid = "" then (.error "Missing uid", [])
  else (.ok (alistGet db uid), [.read "users" uid])

/-- saveUserProfile of src/unnamed/part_000: throws "Missing uid" on an
empty uid, otherwise merge-writes the fields name, curriculum, country
into the document `users/uid`. Returns the thrown-or-unit result, the
store after the call, and the store calls performed. -/
def saveUserProfile (db : Store) (uid : String) (name curriculum country : Json) :
    Except String Unit × Store × List StoreOp :=
  if uid = "" then (.error "Missing uid", db, [])
  else
    let fields : FieldMap :=
      [("name", name), ("curriculum", curriculum), ("country", country)]
    (.ok (), alistSet db uid (mergeFields ((alistGet db uid).getD []) fields),
      [.write "users" uid fields true])

theorem alistGet_set_self {α : Type} (m : List (String × α)) (k : String) (v : α) :
    alistGet (alistSet m k v) k = some v := by
  induction m with
  | nil => simp [alistGet, alistSet]
  | cons kv rest ih =>
    obtain ⟨a, b⟩ := kv
    by_cases h : a = k
    · simp [alistGet, alistSet, h]
    · simp [alistGet, alistSet, h, ih]

theorem alistGet_set_ne {α : Type} (m : List (String × α)) (k k2 : String) (v : α)
    (h : ¬ k2 = k) : alistGet (alistSet m k v) k2 = alistGet m k2 := by
  have h2 : ¬ k = k2 := fun hh => h hh.symm
  induction m with
  | nil => simp [alistGet, alistSet, h2]
  | cons kv rest ih =>
    obtain ⟨a, b⟩ := kv
    by_cases hk : a = k
    · have hak2 : ¬ a = k2 := by rw [hk]; exact h2
      simp [alistGet, alistSet, hk, hak2, h2]
    · simp [alistGet, alistSet, hk, ih]

/-- C4: for every non-empty uid, saveUserProfile succeeds with one merge
write, and getUserProfile on the resulting store returns a document that
holds the newly written name, curriculum and country, while every other
field keeps exactly the value it had in the previously stored document
(absence included): the merged superset of old and new fields. -/
theorem save_then_get_merges (db : Store) (uid : String) (h : ¬ uid = "")
    (name curriculum country : Json) :
    (saveUserProfile db uid name curriculum country).1 = .ok () ∧
    ∃ m, (getUserProfile (saveUserProfile db uid name curriculum country).2.1 uid).1 =
        .ok (some m) ∧
      alistGet m "name" = some name ∧
      alistGet m "curriculum" = some curriculum ∧
      alistGet m "country" = some country ∧
      ∀ k, ¬ k = "name" → ¬ k = "curriculum" → ¬ k = "country" →
        alistGet m k = alistGet ((alistGet db uid).getD []) k := by
  refine ⟨by simp [saveUserProfile, h], ?_⟩
  refine ⟨mergeFields ((alistGet db uid).getD [])
    [("name", name), ("curriculum", curriculum), ("country", country)], ?_, ?_, ?_, ?_, ?_⟩
  · simp [saveUserProfile, getUserProfile, h, alistGet_set_self]
  · simp [mergeFields, List.foldl]
    rw [alistGet_set_ne _ _ _ _ (by decide), alistGet_set_ne _ _ _ _ (by decide),
      alistGet_set_self]
  · simp [mergeFields, List.foldl]
    rw [alistGet_set_ne _ _ _ _ (by decide), alistGet_set_self]
  · simp [mergeFields, List.foldl, alistGet_set_self]
  · intro k hn hc hco
    simp [mergeFields, List.foldl]
    rw [alistGet_set_ne _ _ _ _ hco, alistGet_set_ne _ _ _ _ hc,
      alistGet_set_ne _ _ _ _ hn]

theorem save_then_get_merges_witness :
    (saveUserProfile [("u1", [("age", Json.num 7)])] "u1"
        (Json.str "Ada") (Json.str "IB") (Json.str "CA")).1 = .ok () ∧
    ∃ m, (getUserProfile (saveUserProfile [("u1", [("age", Json.num 7)])] "u1"
          (Json.str "Ada") (Json.str "IB") (Json.str "CA")).2.1 "u1").1 = .ok (some m) ∧
      alistGet m "name" = some (Json.str "Ada") ∧
      alistGet m "curriculum" = some (Json.str "IB") ∧
      alistGet m "country" = some (Json.str "CA") ∧
      ∀ k, ¬ k = "name" → ¬ k = "curriculum" → ¬ k = "country" →
        alistGet m k = alistGet ((alistGet [("u1", [("age", Json.num 7)])] "u1").getD []) k :=
  save_then_get_merges [("u1", [("age", Json.num 7)])] "u1" (by decide)
    (Json.str "Ada") (Json.str "IB") (Json.str "CA")

/-- C5: with an empty uid, getUserProfile and saveUserProfile both throw
the invalid-argument error "Missing uid" synchronously, perform no store
call at all, and the store is unchanged. -/
theorem empty_uid_fails_fast (db : Store) (name curriculum country : Json) :
    getUserProfile db "" = (.error "Missing uid", []) ∧
    saveUserProfile db "" name curriculum country = (.error "Missing uid", db, []) :=
  ⟨by simp [getUserProfile], by simp [saveUserProfile]⟩

/-- C6: for every non-empty uid, getUserProfile performs exactly one read
of the document `users/uid`; it returns the document's contents when the
document exists and the non-error value null (`Except.ok none`) when it
does not — never an exception. -/
theorem get_profile_reads_one_doc (db : Store) (uid : String) (h : ¬ uid = "") :
    (getUserProfile db uid).2 = [.read "users" uid] ∧
    (∀ d, alistGet db uid = some d → (getUserProfile db uid).1 = .ok (some d)) ∧
    (alistGet db uid = none → (getUserProfile db uid).1 = .ok none) := by
  refine ⟨by simp [getUserProfile, h], ?_, ?_⟩
  · intro d hd; simp [getUserProfile, h, hd]
  · intro hd; simp [getUserProfile, h, hd]

theorem get_profile_reads_one_doc_witness :
    (getUserProfile [("u1", [("age", Json.num 7)])] "u2").2 = [.read "users" "u2"] ∧
    (∀ d, alistGet [("u1", [("age", Json.num 7)])] "u2" = some d →
      (getUserProfile [("u1", [("age", Json.num 7)])] "u2").1 = .ok (some d)) ∧
    (alistGet [("u1", [("age", Json.num 7)])] "u2" = none →
      (getUserProfile [("u1", [("age", Json.num 7)])] "u2").1 = .ok none) :=
  get_profile_reads_one_doc [("u1", [("age", Json.num 7)])] "u2" (by decide)

/-! ## Tutor Page (src/frontend/math-tutor/app/page.tsx)

The page component's state is the four `useState` hooks: level, question
text, last reply, loading flag. `ask` and the rendering section are
modelled below; the surrounding system additionally counts relay requests
issued but not yet resolved, so that "at most one request in flight" is a
statement about reachable states. -/

structure TutorReply where
  final_answer : Option String := none
  steps : Option (List String) := none
  check : Option String := none
  next_practice : Option (List String) := none
  detected_topic : Option String := none
  level_used : Option String := none
  method : Option String := none
  error : Option String := none
  hint : Option String := none
deriving DecidableEq

/-- Model of JavaScript `String.prototype.trim`: strip whitespace from both
ends (the repository only ever meets ASCII whitespace). -/
def jsTrim (s : String) : String :=
  ⟨((s.data.dropWhile jsonWs).reverse.dropWhile jsonWs).reverse⟩

/-- JavaScript truthiness of an optional string field: present and
non-empty. -/
def truthyStr : Option String → Bool
  | none => false
  | some s => decide (¬ s = "")

/-- JavaScript truthiness of `field?.length` on an optional array field:
present and non-empty. -/
def truthyList : Option (List String) → Bool
  | none => false
  | some l => decide (¬ l.length = 0)

structure PageState where
  level : String
  q : String
  out : Option TutorReply
  loading : Bool
deriving DecidableEq

/-- The `canAsk` memo of the page: `q.trim().length > 0 && !loading`. The
submit button is disabled exactly when this is false. -/
def canAsk (s : PageState) : Bool :=
  decide (0 < (jsTrim s.q).length) && !s.loading

/-- The rendered result section, lines 84-138 of the page. -/
inductive RenderBranch where
  | placeholder
  | errored (message : String) (hint : Option String)
  | displayed (answer : Option String) (topic levelUsed method : Option String)
      (steps : Option (List String)) (check : Option String)
      (practice : Option (List String))
deriving DecidableEq

/-- The rendering section of the page: no reply yet shows the idle
placeholder; a truthy `error` field routes to the error box (with the hint
when truthy); otherwise the solution card is shown with each optional part
rendered only when truthy. -/
def render (out : Option TutorReply) : RenderBranch :=
  match out with
  | none => .placeholder
  | some r =>
    match r.error with
    | some e =>
      if ¬ e = "" then
        .errored e (if truthyStr r.hint then r.hint else none)
      else
        .displayed r.final_answer
          (if truthyStr r.detected_topic then r.detected_topic else none)
          (if truthyStr r.level_used then r.level_used else none)
          (if truthyStr r.method then r.method else none)
          (if truthyList r.steps then r.steps else none)
          (if truthyStr r.check then r.check else none)
          (if truthyList r.next_practice then r.next_practice else none)
    | none =>
      .displayed r.final_answer
        (if truthyStr r.detected_topic then r.detected_topic else none)
        (if truthyStr r.level_used then r.level_used else none)
        (if truthyStr r.method then r.method else none)
        (if truthyList r.steps then r.steps else none)
        (if truthyStr r.check then r.check else none)
        (if truthyList r.next_practice then r.next_practice else none)

/-- The page together with the number of relay requests issued but not yet
resolved. -/
structure SysState where
  page : PageState
  inFlight : Nat
deriving DecidableEq

/-- Events the page reacts to: invoking `ask` (button click or Enter key),
resolution of an outstanding relay request (`some` reply when the fetch
and `res.json()` succeed, `none` when either throws), and the input
handlers. -/
inductive Event where
  | submit
  | resolve (r : Option TutorReply)
  | setInput (q : String)
  | setLevel (l : String)

/-- One transition of the page. `submit` is the body of `ask`: the guard
`if (!q.trim() || loading) return` makes it a no-op unless the trimmed
input is non-empty and no request is loading; otherwise it sets loading,
clears the previous reply and issues the request. `resolve` is the
continuation after `await`: on success the reply is stored, and in every
case the `finally` block clears the loading flag. -/
def step (st : SysState) (e : Event) : SysState :=
  match e with
  | .submit =>
    if decide (jsTrim st.page.q = "") || st.page.loading then st
    else ⟨{ st.page with out := none, loading := true }, st.inFlight + 1⟩
  | .resolve r =>
    if st.inFlight = 0 then st
    else match r with
      | some data => ⟨{ st.page with out := some data, loading := false }, st.inFlight - 1⟩
      | none => ⟨{ st.page with loading := false }, st.inFlight - 1⟩
  | .setInput q2 => ⟨{ st.page with q := q2 }, st.inFlight⟩
  | .setLevel l2 => ⟨{ st.page with level := l2 }, st.inFlight⟩

/-- The page as first mounted: default level, empty input, no reply, not
loading, nothing in flight. -/
def initialSys : SysState :=
  ⟨⟨"beginner", "", none, false⟩, 0⟩

def run (es : List Event) : SysState :=
  es.foldl step initialSys

/-- The page invariant: never more than one request outstanding, and the
loading flag is set exactly while one is. -/
def sysInv (st : SysState) : Prop :=
  st.inFlight ≤ 1 ∧ (st.page.loading = true ↔ st.inFlight = 1)

theorem step_preserves_sysInv (st : SysState) (e : Event) (h : sysInv st) :
    sysInv (step st e) := by
  obtain ⟨h1, h2⟩ := h
  cases e with
  | submit =>
    by_cases hg : (decide (jsTrim st.page.q = "") || st.page.loading) = true
    · simpa [step, hg] using ⟨h1, h2⟩
    · have hor : (decide (jsTrim st.page.q = "") || st.page.loading) = false :=
        Bool.eq_false_iff.mpr hg
      have hload : st.page.loading = false := (Bool.or_eq_false_iff.mp hor).2
      have hz : st.inFlight = 0 := by
        rcases Nat.le_one_iff_eq_zero_or_eq_one.mp h1 with h0 | h01
        · exact h0
        · exact absurd (h2.mpr h01) (by simp [hload])
      simp only [step, hg, if_false, Bool.not_eq_true] at *
      constructor
      · simp [hz]
      · simp [hz]
  | resolve r =>
    by_cases hz : st.inFlight = 0
    · simpa [step, hz] using ⟨h1, h2⟩
    · cases r with
      | some data =>
        constructor
        · simp only [step, hz, if_false]
          omega
        · simp only [step, hz, if_false]
          have : st.inFlight = 1 := by omega
          simp [this]
      | none =>
        constructor
        · simp only [step, hz, if_false]
          omega
        · simp only [step, hz, if_false]
          have : st.inFlight = 1 := by omega
          simp [this]
  | setInput q2 => exact ⟨h1, h2⟩
  | setLevel l2 => exact ⟨h1, h2⟩

theorem run_sysInv (es : List Event) : sysInv (run es) := by
  suffices hgen : ∀ (es : List Event) (st : SysState), sysInv st →
      sysInv (es.foldl step st) by
    exact hgen es initialSys (by simp [sysInv, initialSys])
  intro es
  induction es with
  | nil => intro st h; exact h
  | cons e rest ih =>
    intro st h
    exact ih (step st e) (step_preserves_sysInv st e h)

theorem canAsk_true_spec (s : PageState) (h : canAsk s = true) :
    ¬ jsTrim s.q = "" ∧ s.loading = false := by
  rw [canAsk, Bool.and_eq_true] at h
  obtain ⟨h1, h2⟩ := h
  have hlen : 0 < (jsTrim s.q).length := of_decide_eq_true h1
  refine ⟨fun heq => ?_, by simpa using h2⟩
  rw [heq] at hlen
  simp [String.length] at hlen

/-- C7: the page enables a submission only when the trimmed input is
non-empty and no request is loading; invoking `ask` while a request is in
flight is a no-op (the whole state is unchanged); consequently every
reachable state of the page has at most one relay request in flight. -/
theorem single_request_in_flight :
    (∀ s : PageState, canAsk s = true → ¬ jsTrim s.q = "" ∧ s.loading = false) ∧
    (∀ st : SysState, st.page.loading = true → step st .submit = st) ∧
    (∀ es : List Event, (run es).inFlight ≤ 1) := by
  refine ⟨canAsk_true_spec, ?_, ?_⟩
  · intro st hl
    simp [step, hl]
  · intro es
    exact (run_sysInv es).1

theorem single_request_in_flight_witness :
    (canAsk ⟨"beginner", " 2*x = 4 ", none, false⟩ = true ∧
      ¬ jsTrim " 2*x = 4 " = "" ∧ false = false) ∧
    step ⟨⟨"beginner", "x", none, true⟩, 1⟩ .submit = ⟨⟨"beginner", "x", none, true⟩, 1⟩ ∧
    (run [.submit, .submit]).inFlight ≤ 1 :=
  ⟨⟨rfl, single_request_in_flight.1 ⟨"beginner", " 2*x = 4 ", none, false⟩ rfl⟩,
   single_request_in_flight.2.1 ⟨⟨"beginner", "x", none, true⟩, 1⟩ rfl,
   single_request_in_flight.2.2 [.submit, .submit]⟩

/-- C8: a reply whose `error` field is present and non-empty routes
rendering to the error branch, whatever its other fields (steps included)
hold; a reply without a truthy `error` field routes to the displayed
branch, which shows the answer and shows steps, check text and practice
suggestions exactly when they are present and non-empty. -/
theorem reply_error_routing :
    (∀ (r : TutorReply) (e : String), r.error = some e → ¬ e = "" →
      render (some r) = .errored e (if truthyStr r.hint then r.hint else none)) ∧
    (∀ r : TutorReply, truthyStr r.error = false →
      render (some r) =
        .displayed r.final_answer
          (if truthyStr r.detected_topic then r.detected_topic else none)
          (if truthyStr r.level_used then r.level_used else none)
          (if truthyStr r.method then r.method else none)
          (if truthyList r.steps then r.steps else none)
          (if truthyStr r.check then r.check else none)
          (if truthyList r.next_practice then r.next_practice else none)) := by
  constructor
  · intro r e he hne
    simp [render, he, hne]
  · intro r hf
    cases herr : r.error with
    | none => simp [render, herr]
    | some e =>
      have he : e = "" := by
        rw [herr] at hf
        simpa [truthyStr] using hf
      simp [render, herr, he]

theorem reply_error_routing_witness :
    render (some { error := some "boom", steps := some ["step 1"] }) =
      .errored "boom" none :=
  reply_error_routing.1 { error := some "boom", steps := some ["step 1"] } "boom" rfl
    (by decide)

/-- A complete execution of `ask` once the guard has passed: the request
is issued, then its resolution arrives (`some` reply, or `none` when the
fetch or `res.json()` threw). -/
def askRun (st : SysState) (r : Option TutorReply) : SysState :=
  step (step st .submit) (.resolve r)

/-- C10: whenever `ask` actually issues a request, its termination —
successful or exceptional — leaves the loading flag false (the `finally`
block), so the submit control is enabled again; in the exceptional case
the reply stays null and the page renders the idle placeholder, not the
error branch. -/
theorem ask_terminates_not_loading (st : SysState) (r : Option TutorReply)
    (hc : canAsk st.page = true) :
    (askRun st r).page.loading = false ∧
    canAsk (askRun st r).page = true ∧
    (r = none → (askRun st r).page.out = none ∧
      render (askRun st r).page.out = .placeholder) := by
  obtain ⟨htrim, hload⟩ := canAsk_true_spec st.page hc
  have h1 : decide (0 < (jsTrim st.page.q).length) = true := by
    rw [canAsk, Bool.and_eq_true] at hc
    exact hc.1
  refine ⟨?_, ?_, ?_⟩
  · cases r with
    | some data => simp [askRun, step, htrim, hload]
    | none => simp [askRun, step, htrim, hload]
  · cases r with
    | some data => simp [askRun, step, canAsk, htrim, hload, h1]
    | none => simp [askRun, step, canAsk, htrim, hload, h1]
  · rintro rfl
    refine ⟨?_, ?_⟩
    · simp [askRun, step, htrim, hload]
    · simp [askRun, step, render, htrim, hload]

theorem ask_terminates_not_loading_witness :
    canAsk (⟨"beginner", "2*x + 3 = 7", none, false⟩ : PageState) = true ∧
    ((askRun ⟨⟨"beginner", "2*x + 3 = 7", none, false⟩, 0⟩ none).page.loading = false ∧
     canAsk (askRun ⟨⟨"beginner", "2*x + 3 = 7", none, false⟩, 0⟩ none).page = true ∧
     ((none : Option TutorReply) = none →
       (askRun ⟨⟨"beginner", "2*x + 3 = 7", none, false⟩, 0⟩ none).page.out = none ∧
       render (askRun ⟨⟨"beginner", "2*x + 3 = 7", none, false⟩, 0⟩ none).page.out =
         .placeholder)) :=
  ⟨rfl, ask_terminates_not_loading ⟨⟨"beginner", "2*x + 3 = 7", none, false⟩, 0⟩ none rfl⟩

/-! ## Firebase app setup modules (src/unnamed/part_000 and part_002)

The firebase SDK's process-wide app registry is not part of this
repository; it is modelled minimally as the list of app handles the
process has registered (`getApps`) plus a count of how many times app
initialization was invoked, which is the observable the claim is about.
Each module's top-level `const app = ...` line becomes a function of that
registry state, so re-invocation of the module by the host environment
(e.g. hot reload) is re-application of the function. -/

structure FirebaseEnv where
  apps : List Nat
  initCalls : Nat
deriving DecidableEq

/-- Model of the SDK call `initializeApp(firebaseConfig)`: registers a
fresh app handle and records the invocation. -/
def firebaseInitApp (env : FirebaseEnv) : Nat × FirebaseEnv :=
  (env.apps.length, ⟨env.apps ++ [env.apps.length], env.initCalls + 1⟩)

/-- Model of the SDK call `getApps()`: the registered app handles. -/
def getApps (env : FirebaseEnv) : List Nat :=
  env.apps

/-- Line 21 of src/unnamed/part_000:
`const app = initializeApp(firebaseConfig);` — unconditional. -/
def setupAppUnguarded (env : FirebaseEnv) : Nat × FirebaseEnv :=
  firebaseInitApp env

/-- Line 15 of src/unnamed/part_002:
`const app = getApps().length ? getApps()[0] : initializeApp(firebaseConfig);`
— reuse the first registered app when one exists. -/
def setupAppGuarded (env : FirebaseEnv) : Nat × FirebaseEnv :=
  if ¬ (getApps env).length = 0 then ((getApps env).headD 0, env)
  else firebaseInitApp env

/-- C9, counterexample: starting from a fresh process, the module of
src/unnamed/part_000 invoked twice performs two app initializations (the
second re-invocation does not reuse the app registered by the first),
while the guarded module of src/unnamed/part_002 on the same state reuses
the registered app and leaves the registry untouched — so not every
module that sets up the app handle is guarded against duplicate
initialization. -/
theorem app_setup_not_all_guarded :
    (setupAppUnguarded (setupAppUnguarded ⟨[], 0⟩).2).2.initCalls = 2 ∧
    (setupAppUnguarded (setupAppUnguarded ⟨[], 0⟩).2).2.apps.length = 2 ∧
    setupAppGuarded (setupAppUnguarded ⟨[], 0⟩).2 = (0, (setupAppUnguarded ⟨[], 0⟩).2) := by
  decide

/-- C9 (amended): only the module of src/unnamed/part_002 is guarded
against duplicate initialization — whenever an app is already registered
it returns that app and performs no initialization, leaving the registry
unchanged — while the module of src/unnamed/part_000 invokes
`initializeApp` unconditionally on every (re-)invocation. -/
theorem guarded_setup_reuses_app (env : FirebaseEnv)
    (h : ¬ (getApps env).length = 0) :
    setupAppGuarded env = ((getApps env).headD 0, env) ∧
    (setupAppGuarded env).2.initCalls = env.initCalls ∧
    (∀ e : FirebaseEnv, (setupAppUnguarded e).2.initCalls = e.initCalls + 1) := by
  refine ⟨by simp [setupAppGuarded, h], by simp [setupAppGuarded, h], ?_⟩
  intro e
  simp [setupAppUnguarded, firebaseInitApp]

theorem guarded_setup_reuses_app_witness :
    ¬ (getApps ⟨[0], 1⟩).length = 0 ∧
    (setupAppGuarded ⟨[0], 1⟩ = ((getApps ⟨[0], 1⟩).headD 0, ⟨[0], 1⟩) ∧
     (setupAppGuarded ⟨[0], 1⟩).2.initCalls = 1 ∧
     (∀ e : FirebaseEnv, (setupAppUnguarded e).2.initCalls = e.initCalls + 1)) :=
  ⟨by decide, guarded_setup_reuses_app ⟨[0], 1⟩ (by decide)⟩
